import Mathlib

/-!
Shallow embedding of the headtrackr session controller (src/src/main.js).

The controller (`headtrackr.Tracker`) is a closure over mutable state:
`fov`, `initialized`, `run`, `faceFound`, `firstRun`, `headDiagonal`,
`facetracker`, `headposition`, `detectionTimer`, the smoother's
`initialized` flag, and `this.status`.  We embed that state as a record
and each of `init`, `start`, `stop` and the per-tick `track` function as
pure state transformers that additionally return the list of status
events dispatched (`headtrackerStatus`).

External collaborators (the facetrackr fine tracker, the smoother's
numeric filter, headposition's FOV estimation, and `Math.sqrt`, which is
floating point) are modelled by an oracle record `Externals`; the
controller only stores the construction options it passed to them, which
is exactly what the claims inspect.
-/

namespace Headtrackr

/-- The `detection` tag of a tracking result: "WB" (whitebalancing),
"VJ" (coarse Viola-Jones detection), "CS" (camshift fine tracking). -/
inductive Mode where
  | WB : Mode
  | VJ : Mode
  | CS : Mode
deriving DecidableEq, Repr

/-- The per-frame tracking result object returned by
`facetracker.getTrackingObject` (a DetectionResult). -/
structure Frame where
  detection : Mode
  confidence : ℚ
  x : ℚ
  y : ℚ
  width : ℚ
  height : ℚ
deriving DecidableEq, Repr

/-- Constructor parameters with the defaults filled in by the
`headtrackr.Tracker` constructor.  `fov = none` models `params.fov ===
undefined`. -/
structure Params where
  smoothing : Bool := true
  retryDetection : Bool := true
  ui : Bool := true
  debug : Bool := false
  detectionInterval : ℚ := 20
  cameraOffset : ℚ := 23 / 2
  calcAngles : Bool := false
  headPosition : Bool := true
  fov : Option ℚ := none
deriving Repr

/-- Options passed to `new headtrackr.facetrackr.Tracker({...})`:
`whitebalancing = none` when the key is absent (initial construction),
`some false` on the retry path. -/
structure FtOptions where
  whitebalancing : Option Bool
  debug : Bool
  calcAngles : Bool
deriving DecidableEq, Repr

/-- Options passed to `new headtrackr.headposition.Tracker(...)`:
`fov = none` when no fov key is given (auto estimation). -/
structure HeadPosOptions where
  fov : Option ℚ
  distance : ℚ
deriving DecidableEq, Repr

/-- A constructed headposition tracker: the options it was built with and
the value its `getFOV()` returns. -/
structure HeadPos where
  opts : HeadPosOptions
  fovVal : ℚ
deriving DecidableEq, Repr

/-- Oracles for the external collaborators: what `getFOV()` of a
headposition tracker built with given options on a given sample returns,
what `smoother.smooth` returns for a sample, and `Math.sqrt` (floating
point in the source, abstracted here). -/
structure Externals where
  getFOVf : HeadPosOptions → Frame → ℚ
  smoothf : Frame → Frame
  sqrtf : ℚ → ℚ

/-- The closure state of one `headtrackr.Tracker` instance.  `ftGen`
is a ghost generation counter bumped at each `new facetrackr.Tracker`,
recording that a fresh object was constructed. -/
structure St where
  fov : ℚ
  initialized : Bool
  run : Bool
  faceFound : Bool
  firstRun : Bool
  headDiagonal : List ℚ
  ftGen : Nat
  facetracker : Option FtOptions
  headposition : Option HeadPos
  detectionTimer : Option ℚ
  smInit : Bool
  status : String
deriving DecidableEq, Repr

/-- State right after `new headtrackr.Tracker(params)`: `fov = 0`,
`this.initialized` undefined (falsy), `run/faceFound` false, `firstRun`
true, `headDiagonal = []`, `this.status = ""`. -/
def St.init0 : St :=
  { fov := 0
    initialized := false
    run := false
    faceFound := false
    firstRun := true
    headDiagonal := []
    ftGen := 0
    facetracker := none
    headposition := none
    detectionTimer := none
    smInit := false
    status := "" }

/-- `Math.max.apply(null, l)` for a nonempty list (0 for an empty one,
which the source never queries). -/
def listMax : List ℚ → ℚ
  | [] => 0
  | x :: xs => xs.foldl max x

/-- `Math.min.apply(null, l)` for a nonempty list. -/
def listMin : List ℚ → ℚ
  | [] => 0
  | x :: xs => xs.foldl min x

/-- Lines 179-187 of main.js: push a head diagonal into `headDiagonal`.
If fewer than 6 samples are stored, append and leave `stable = false`;
otherwise `splice(0,1)` (drop the oldest), append, and set `stable` iff
the span of the resulting window is `< 5`. -/
def pushDiag (w : List ℚ) (d : ℚ) : List ℚ × Bool :=
  if w.length < 6 then (w ++ [d], false)
  else
    let w2 := w.drop 1 ++ [d]
    (w2, decide (listMax w2 - listMin w2 < 5))

/-- The window contents after a sequence of pushes starting empty. -/
def runWindow (ds : List ℚ) : List ℚ :=
  ds.foldl (fun w d => (pushDiag w d).1) []

/-- Line 93-96: lazily construct the fine tracker on the first tick
(`facetracker === undefined`), with no `whitebalancing` key. -/
def lazyFt (p : Params) (s : St) : St :=
  if s.facetracker = none then
    { s with
      facetracker := some { whitebalancing := none, debug := p.debug, calcAngles := p.calcAngles }
      ftGen := s.ftGen + 1 }
  else s

/-- Line 102: `if (faceObj.detection == "WB") headtrackerStatus("whitebalance")`. -/
def emitWB (f : Frame) (s : St) : St × List String :=
  if f.detection = Mode.WB then ({ s with status := "whitebalance" }, ["whitebalance"])
  else (s, [])

/-- Line 103: `if (firstRun && faceObj.detection == "VJ") headtrackerStatus("detecting")`. -/
def emitDetecting (f : Frame) (s : St) : St × List String :=
  if s.firstRun = true ∧ f.detection = Mode.VJ then
    ({ s with status := "detecting" }, ["detecting"])
  else (s, [])

/-- Lines 107-114: the "VJ" branch. Start the detection timer if unset
and emit "hints" once more than 5000 ms have elapsed. -/
def trackVJ (now : ℚ) (s : St) : St × List String :=
  let t := s.detectionTimer.getD now
  let s := { s with detectionTimer := some t }
  if now - t > 5000 then ({ s with status := "hints" }, ["hints"]) else (s, [])

/-- Lines 241-249: `this.stop()`. Clears the pending timeout, stops the
loop, emits "stopped", discards the fine tracker and the found flag;
always returns true. -/
def doStop (s : St) : St × List String × Bool :=
  ({ s with run := false, status := "stopped", facetracker := none, faceFound := false },
   ["stopped"], true)

/-- Lines 144-156: the tracking-lost branch (`width == 0 || height == 0`).
With retry: emit "redetecting", construct a fresh fine tracker with
`whitebalancing : false`, clear `faceFound` and `headposition`.
Without retry: emit "lost" and call `this.stop()`. -/
def trackLoss (p : Params) (s : St) : St × List String :=
  if p.retryDetection then
    ({ s with
        status := "redetecting"
        facetracker := some { whitebalancing := some false, debug := p.debug, calcAngles := p.calcAngles }
        ftGen := s.ftGen + 1
        faceFound := false
        headposition := none },
     ["redetecting"])
  else
    let s := { s with status := "lost" }
    let r := doStop s
    (r.1, "lost" :: r.2.1)

/-- Lines 158-161: emit "found" edge-triggered on `faceFound`. -/
def trackFound (s : St) : St × List String :=
  if s.faceFound = false then ({ s with status := "found", faceFound := true }, ["found"])
  else (s, [])

/-- Lines 163-169: if smoothing is enabled, initialize the smoother with
the first sample (`smoother.initialized`) and replace the sample by the
smoothed one. -/
def smoothStep (E : Externals) (p : Params) (f : Frame) (s : St) : St × Frame :=
  if p.smoothing then
    ((if s.smInit = false then { s with smInit := true } else s), E.smoothf f)
  else (s, f)

/-- Lines 172-205: the headposition bootstrap. While no headposition
tracker is active (and headposition tracking is on), push the head
diagonal into the stability window; once stable, construct the
headposition tracker: on the very first bootstrap (`firstRun`) pass the
configured fov (or none for auto estimation) and record the resulting
`getFOV()` into `fov`; afterwards always pass the recorded `fov`. -/
def headposStep (E : Externals) (p : Params) (f : Frame) (s : St) : St :=
  if s.headposition = none ∧ p.headPosition = true then
    let headdiag := E.sqrtf (f.width * f.width + f.height * f.height)
    let pr := pushDiag s.headDiagonal headdiag
    let s := { s with headDiagonal := pr.1 }
    if pr.2 then
      if s.firstRun then
        let opts : HeadPosOptions := { fov := p.fov, distance := p.cameraOffset }
        let hp : HeadPos := { opts := opts, fovVal := E.getFOVf opts f }
        { s with headposition := some hp, fov := hp.fovVal, firstRun := false }
      else
        let opts : HeadPosOptions := { fov := some s.fov, distance := p.cameraOffset }
        { s with headposition := some { opts := opts, fovVal := E.getFOVf opts f } }
    else s
  else s

/-- Lines 125-206: the "CS" (fine-tracked) branch.  Clears the detection
timer, sets `this.status = 'tracking'`, then either handles loss or the
found / smoothing / headposition pipeline. -/
def trackCS (E : Externals) (p : Params) (f : Frame) (s : St) : St × List String :=
  let s := { s with detectionTimer := none, status := "tracking" }
  if f.width = 0 ∨ f.height = 0 then trackLoss p s
  else
    let r1 := trackFound s
    let r2 := smoothStep E p f r1.1
    (headposStep E p r2.2 r2.1, r1.2)

/-- Lines 91-213: one invocation of `track()` on a tracking result `f`
at wall-clock time `now`.  Returns the new state and the list of status
events dispatched during the tick. -/
def track (E : Externals) (p : Params) (now : ℚ) (f : Frame) (s : St) : St × List String :=
  let s := lazyFt p s
  let r0 := emitWB f s
  let r1 := emitDetecting f r0.1
  let out := r0.2 ++ r1.2
  if f.confidence = 0 then (r1.1, out)
  else
    match f.detection with
    | Mode.WB => (r1.1, out)
    | Mode.VJ =>
        let r := trackVJ now r1.1
        (r.1, out ++ r.2)
    | Mode.CS =>
        let r := trackCS E p f r1.1
        (r.1, out ++ r.2)

/-- Lines 74-89: `this.init(canvas)`. Emits "getUserMedia", creates a
fresh smoother (not yet initialized) and sets `this.initialized`. -/
def doInit (s : St) : St × List String :=
  ({ s with initialized := true, smInit := false, status := "getUserMedia" },
   ["getUserMedia"])

/-- Lines 232-239: `this.start()`. Returns false if `this.initialized`
is falsy; otherwise runs the starter (which, once the whitebalance probe
passes, sets `run = true` and begins polling) and returns true. -/
def doStart (s : St) : St × List String × Bool :=
  if s.initialized = false then (s, [], false)
  else ({ s with run := true }, [], true)

/-- The externally driven events of a session: `init`, `start`, `stop`,
and one `track()` tick carrying the current time and tracking result. -/
inductive Ev where
  | init : Ev
  | start : Ev
  | stop : Ev
  | tick : ℚ → Frame → Ev

/-- One event step: new state plus the status events dispatched. -/
def stepEv (E : Externals) (p : Params) (s : St) (e : Ev) : St × List String :=
  match e with
  | Ev.init => doInit s
  | Ev.start =>
      let r := doStart s
      (r.1, r.2.1)
  | Ev.stop =>
      let r := doStop s
      (r.1, r.2.1)
  | Ev.tick now f => track E p now f s

/-- Run a list of events, concatenating the dispatched status events. -/
def runEvs (E : Externals) (p : Params) (s : St) : List Ev → St × List String
  | [] => (s, [])
  | e :: es =>
      let r := stepEv E p s e
      let r2 := runEvs E p r.1 es
      (r2.1, r.2 ++ r2.2)

/-- Lines 251-253: `this.getFOV()`. -/
def getFOV (s : St) : ℚ := s.fov

/-- A valid FINE_TRACKED lock: "CS" result with nonzero confidence and
nondegenerate box. -/
def validLock (f : Frame) : Prop :=
  f.detection = Mode.CS ∧ f.confidence ≠ 0 ∧ f.width ≠ 0 ∧ f.height ≠ 0

instance (f : Frame) : Decidable (validLock f) := by
  unfold validLock; infer_instance

/-- A tracking-loss result: "CS" with nonzero confidence and a degenerate
box. -/
def lossFrame (f : Frame) : Prop :=
  f.detection = Mode.CS ∧ f.confidence ≠ 0 ∧ (f.width = 0 ∨ f.height = 0)

instance (f : Frame) : Decidable (lossFrame f) := by
  unfold lossFrame; infer_instance

/-- Concrete oracles used by closed witnesses: identity smoothing and
square root, constant 30 degree FOV estimate. -/
def E0 : Externals :=
  { getFOVf := fun _ _ => 30, smoothf := fun f => f, sqrtf := fun q => q }

/-- Default constructor parameters. -/
def P0 : Params := {}

/-- A valid lock whose (oracle) diagonal is 2. -/
def frameA : Frame :=
  { detection := Mode.CS, confidence := 1, x := 0, y := 0, width := 1, height := 1 }

/-- A valid lock whose (oracle) diagonal is 5. -/
def frameB : Frame :=
  { detection := Mode.CS, confidence := 1, x := 0, y := 0, width := 1, height := 2 }

/-- A loss result: fine tracking with a degenerate box. -/
def frameLoss : Frame :=
  { detection := Mode.CS, confidence := 1, x := 0, y := 0, width := 0, height := 0 }

/-- A whitebalance-phase result with zero confidence. -/
def frameWB0 : Frame :=
  { detection := Mode.WB, confidence := 0, x := 0, y := 0, width := 0, height := 0 }

/-! ## Projection lemmas for the track pipeline helpers -/

@[simp] lemma lazyFt_fov (p : Params) (s : St) :
    (lazyFt p s).fov = s.fov := by
  simp only [lazyFt]; split_ifs <;> rfl

@[simp] lemma lazyFt_initialized (p : Params) (s : St) :
    (lazyFt p s).initialized = s.initialized := by
  simp only [lazyFt]; split_ifs <;> rfl

@[simp] lemma lazyFt_run (p : Params) (s : St) :
    (lazyFt p s).run = s.run := by
  simp only [lazyFt]; split_ifs <;> rfl

@[simp] lemma lazyFt_faceFound (p : Params) (s : St) :
    (lazyFt p s).faceFound = s.faceFound := by
  simp only [lazyFt]; split_ifs <;> rfl

@[simp] lemma lazyFt_firstRun (p : Params) (s : St) :
    (lazyFt p s).firstRun = s.firstRun := by
  simp only [lazyFt]; split_ifs <;> rfl

@[simp] lemma lazyFt_headDiagonal (p : Params) (s : St) :
    (lazyFt p s).headDiagonal = s.headDiagonal := by
  simp only [lazyFt]; split_ifs <;> rfl

@[simp] lemma lazyFt_headposition (p : Params) (s : St) :
    (lazyFt p s).headposition = s.headposition := by
  simp only [lazyFt]; split_ifs <;> rfl

@[simp] lemma lazyFt_detectionTimer (p : Params) (s : St) :
    (lazyFt p s).detectionTimer = s.detectionTimer := by
  simp only [lazyFt]; split_ifs <;> rfl

@[simp] lemma lazyFt_smInit (p : Params) (s : St) :
    (lazyFt p s).smInit = s.smInit := by
  simp only [lazyFt]; split_ifs <;> rfl

@[simp] lemma lazyFt_status (p : Params) (s : St) :
    (lazyFt p s).status = s.status := by
  simp only [lazyFt]; split_ifs <;> rfl

@[simp] lemma emitWB_fov (f : Frame) (s : St) :
    ((emitWB f s).1).fov = s.fov := by
  simp only [emitWB]; split_ifs <;> rfl

@[simp] lemma emitWB_initialized (f : Frame) (s : St) :
    ((emitWB f s).1).initialized = s.initialized := by
  simp only [emitWB]; split_ifs <;> rfl

@[simp] lemma emitWB_run (f : Frame) (s : St) :
    ((emitWB f s).1).run = s.run := by
  simp only [emitWB]; split_ifs <;> rfl

@[simp] lemma emitWB_faceFound (f : Frame) (s : St) :
    ((emitWB f s).1).faceFound = s.faceFound := by
  simp only [emitWB]; split_ifs <;> rfl

@[simp] lemma emitWB_firstRun (f : Frame) (s : St) :
    ((emitWB f s).1).firstRun = s.firstRun := by
  simp only [emitWB]; split_ifs <;> rfl

@[simp] lemma emitWB_headDiagonal (f : Frame) (s : St) :
    ((emitWB f s).1).headDiagonal = s.headDiagonal := by
  simp only [emitWB]; split_ifs <;> rfl

@[simp] lemma emitWB_ftGen (f : Frame) (s : St) :
    ((emitWB f s).1).ftGen = s.ftGen := by
  simp only [emitWB]; split_ifs <;> rfl

@[simp] lemma emitWB_facetracker (f : Frame) (s : St) :
    ((emitWB f s).1).facetracker = s.facetracker := by
  simp only [emitWB]; split_ifs <;> rfl

@[simp] lemma emitWB_headposition (f : Frame) (s : St) :
    ((emitWB f s).1).headposition = s.headposition := by
  simp only [emitWB]; split_ifs <;> rfl

@[simp] lemma emitWB_detectionTimer (f : Frame) (s : St) :
    ((emitWB f s).1).detectionTimer = s.detectionTimer := by
  simp only [emitWB]; split_ifs <;> rfl

@[simp] lemma emitWB_smInit (f : Frame) (s : St) :
    ((emitWB f s).1).smInit = s.smInit := by
  simp only [emitWB]; split_ifs <;> rfl

@[simp] lemma emitDetecting_fov (f : Frame) (s : St) :
    ((emitDetecting f s).1).fov = s.fov := by
  simp only [emitDetecting]; split_ifs <;> rfl

@[simp] lemma emitDetecting_initialized (f : Frame) (s : St) :
    ((emitDetecting f s).1).initialized = s.initialized := by
  simp only [emitDetecting]; split_ifs <;> rfl

@[simp] lemma emitDetecting_run (f : Frame) (s : St) :
    ((emitDetecting f s).1).run = s.run := by
  simp only [emitDetecting]; split_ifs <;> rfl

@[simp] lemma emitDetecting_faceFound (f : Frame) (s : St) :
    ((emitDetecting f s).1).faceFound = s.faceFound := by
  simp only [emitDetecting]; split_ifs <;> rfl

@[simp] lemma emitDetecting_firstRun (f : Frame) (s : St) :
    ((emitDetecting f s).1).firstRun = s.firstRun := by
  simp only [emitDetecting]; split_ifs <;> rfl

@[simp] lemma emitDetecting_headDiagonal (f : Frame) (s : St) :
    ((emitDetecting f s).1).headDiagonal = s.headDiagonal := by
  simp only [emitDetecting]; split_ifs <;> rfl

@[simp] lemma emitDetecting_ftGen (f : Frame) (s : St) :
    ((emitDetecting f s).1).ftGen = s.ftGen := by
  simp only [emitDetecting]; split_ifs <;> rfl

@[simp] lemma emitDetecting_facetracker (f : Frame) (s : St) :
    ((emitDetecting f s).1).facetracker = s.facetracker := by
  simp only [emitDetecting]; split_ifs <;> rfl

@[simp] lemma emitDetecting_headposition (f : Frame) (s : St) :
    ((emitDetecting f s).1).headposition = s.headposition := by
  simp only [emitDetecting]; split_ifs <;> rfl

@[simp] lemma emitDetecting_detectionTimer (f : Frame) (s : St) :
    ((emitDetecting f s).1).detectionTimer = s.detectionTimer := by
  simp only [emitDetecting]; split_ifs <;> rfl

@[simp] lemma emitDetecting_smInit (f : Frame) (s : St) :
    ((emitDetecting f s).1).smInit = s.smInit := by
  simp only [emitDetecting]; split_ifs <;> rfl

@[simp] lemma trackVJ_fov (now : ℚ) (s : St) :
    ((trackVJ now s).1).fov = s.fov := by
  simp only [trackVJ]; split_ifs <;> rfl

@[simp] lemma trackVJ_initialized (now : ℚ) (s : St) :
    ((trackVJ now s).1).initialized = s.initialized := by
  simp only [trackVJ]; split_ifs <;> rfl

@[simp] lemma trackVJ_run (now : ℚ) (s : St) :
    ((trackVJ now s).1).run = s.run := by
  simp only [trackVJ]; split_ifs <;> rfl

@[simp] lemma trackVJ_faceFound (now : ℚ) (s : St) :
    ((trackVJ now s).1).faceFound = s.faceFound := by
  simp only [trackVJ]; split_ifs <;> rfl

@[simp] lemma trackVJ_firstRun (now : ℚ) (s : St) :
    ((trackVJ now s).1).firstRun = s.firstRun := by
  simp only [trackVJ]; split_ifs <;> rfl

@[simp] lemma trackVJ_headDiagonal (now : ℚ) (s : St) :
    ((trackVJ now s).1).headDiagonal = s.headDiagonal := by
  simp only [trackVJ]; split_ifs <;> rfl

@[simp] lemma trackVJ_ftGen (now : ℚ) (s : St) :
    ((trackVJ now s).1).ftGen = s.ftGen := by
  simp only [trackVJ]; split_ifs <;> rfl

@[simp] lemma trackVJ_facetracker (now : ℚ) (s : St) :
    ((trackVJ now s).1).facetracker = s.facetracker := by
  simp only [trackVJ]; split_ifs <;> rfl

@[simp] lemma trackVJ_headposition (now : ℚ) (s : St) :
    ((trackVJ now s).1).headposition = s.headposition := by
  simp only [trackVJ]; split_ifs <;> rfl

@[simp] lemma trackVJ_smInit (now : ℚ) (s : St) :
    ((trackVJ now s).1).smInit = s.smInit := by
  simp only [trackVJ]; split_ifs <;> rfl

@[simp] lemma trackFound_fov (s : St) :
    ((trackFound s).1).fov = s.fov := by
  simp only [trackFound]; split_ifs <;> rfl

@[simp] lemma trackFound_initialized (s : St) :
    ((trackFound s).1).initialized = s.initialized := by
  simp only [trackFound]; split_ifs <;> rfl

@[simp] lemma trackFound_run (s : St) :
    ((trackFound s).1).run = s.run := by
  simp only [trackFound]; split_ifs <;> rfl

@[simp] lemma trackFound_firstRun (s : St) :
    ((trackFound s).1).firstRun = s.firstRun := by
  simp only [trackFound]; split_ifs <;> rfl

@[simp] lemma trackFound_headDiagonal (s : St) :
    ((trackFound s).1).headDiagonal = s.headDiagonal := by
  simp only [trackFound]; split_ifs <;> rfl

@[simp] lemma trackFound_ftGen (s : St) :
    ((trackFound s).1).ftGen = s.ftGen := by
  simp only [trackFound]; split_ifs <;> rfl

@[simp] lemma trackFound_facetracker (s : St) :
    ((trackFound s).1).facetracker = s.facetracker := by
  simp only [trackFound]; split_ifs <;> rfl

@[simp] lemma trackFound_headposition (s : St) :
    ((trackFound s).1).headposition = s.headposition := by
  simp only [trackFound]; split_ifs <;> rfl

@[simp] lemma trackFound_detectionTimer (s : St) :
    ((trackFound s).1).detectionTimer = s.detectionTimer := by
  simp only [trackFound]; split_ifs <;> rfl

@[simp] lemma trackFound_smInit (s : St) :
    ((trackFound s).1).smInit = s.smInit := by
  simp only [trackFound]; split_ifs <;> rfl

@[simp] lemma smoothStep_fov (E : Externals) (p : Params) (f : Frame) (s : St) :
    ((smoothStep E p f s).1).fov = s.fov := by
  simp only [smoothStep]; split_ifs <;> rfl

@[simp] lemma smoothStep_initialized (E : Externals) (p : Params) (f : Frame) (s : St) :
    ((smoothStep E p f s).1).initialized = s.initialized := by
  simp only [smoothStep]; split_ifs <;> rfl

@[simp] lemma smoothStep_run (E : Externals) (p : Params) (f : Frame) (s : St) :
    ((smoothStep E p f s).1).run = s.run := by
  simp only [smoothStep]; split_ifs <;> rfl

@[simp] lemma smoothStep_faceFound (E : Externals) (p : Params) (f : Frame) (s : St) :
    ((smoothStep E p f s).1).faceFound = s.faceFound := by
  simp only [smoothStep]; split_ifs <;> rfl

@[simp] lemma smoothStep_firstRun (E : Externals) (p : Params) (f : Frame) (s : St) :
    ((smoothStep E p f s).1).firstRun = s.firstRun := by
  simp only [smoothStep]; split_ifs <;> rfl

@[simp] lemma smoothStep_headDiagonal (E : Externals) (p : Params) (f : Frame) (s : St) :
    ((smoothStep E p f s).1).headDiagonal = s.headDiagonal := by
  simp only [smoothStep]; split_ifs <;> rfl

@[simp] lemma smoothStep_ftGen (E : Externals) (p : Params) (f : Frame) (s : St) :
    ((smoothStep E p f s).1).ftGen = s.ftGen := by
  simp only [smoothStep]; split_ifs <;> rfl

@[simp] lemma smoothStep_facetracker (E : Externals) (p : Params) (f : Frame) (s : St) :
    ((smoothStep E p f s).1).facetracker = s.facetracker := by
  simp only [smoothStep]; split_ifs <;> rfl

@[simp] lemma smoothStep_headposition (E : Externals) (p : Params) (f : Frame) (s : St) :
    ((smoothStep E p f s).1).headposition = s.headposition := by
  simp only [smoothStep]; split_ifs <;> rfl

@[simp] lemma smoothStep_detectionTimer (E : Externals) (p : Params) (f : Frame) (s : St) :
    ((smoothStep E p f s).1).detectionTimer = s.detectionTimer := by
  simp only [smoothStep]; split_ifs <;> rfl

@[simp] lemma smoothStep_status (E : Externals) (p : Params) (f : Frame) (s : St) :
    ((smoothStep E p f s).1).status = s.status := by
  simp only [smoothStep]; split_ifs <;> rfl

@[simp] lemma headposStep_initialized (E : Externals) (p : Params) (f : Frame) (s : St) :
    (headposStep E p f s).initialized = s.initialized := by
  simp only [headposStep]; split_ifs <;> rfl

@[simp] lemma headposStep_run (E : Externals) (p : Params) (f : Frame) (s : St) :
    (headposStep E p f s).run = s.run := by
  simp only [headposStep]; split_ifs <;> rfl

@[simp] lemma headposStep_faceFound (E : Externals) (p : Params) (f : Frame) (s : St) :
    (headposStep E p f s).faceFound = s.faceFound := by
  simp only [headposStep]; split_ifs <;> rfl

@[simp] lemma headposStep_ftGen (E : Externals) (p : Params) (f : Frame) (s : St) :
    (headposStep E p f s).ftGen = s.ftGen := by
  simp only [headposStep]; split_ifs <;> rfl

@[simp] lemma headposStep_facetracker (E : Externals) (p : Params) (f : Frame) (s : St) :
    (headposStep E p f s).facetracker = s.facetracker := by
  simp only [headposStep]; split_ifs <;> rfl

@[simp] lemma headposStep_detectionTimer (E : Externals) (p : Params) (f : Frame) (s : St) :
    (headposStep E p f s).detectionTimer = s.detectionTimer := by
  simp only [headposStep]; split_ifs <;> rfl

@[simp] lemma headposStep_smInit (E : Externals) (p : Params) (f : Frame) (s : St) :
    (headposStep E p f s).smInit = s.smInit := by
  simp only [headposStep]; split_ifs <;> rfl

@[simp] lemma headposStep_status (E : Externals) (p : Params) (f : Frame) (s : St) :
    (headposStep E p f s).status = s.status := by
  simp only [headposStep]; split_ifs <;> rfl

@[simp] lemma doStop_fov (s : St) :
    ((doStop s).1).fov = s.fov := by
  rfl

@[simp] lemma doStop_initialized (s : St) :
    ((doStop s).1).initialized = s.initialized := by
  rfl

@[simp] lemma doStop_firstRun (s : St) :
    ((doStop s).1).firstRun = s.firstRun := by
  rfl

@[simp] lemma doStop_headDiagonal (s : St) :
    ((doStop s).1).headDiagonal = s.headDiagonal := by
  rfl

@[simp] lemma doStop_ftGen (s : St) :
    ((doStop s).1).ftGen = s.ftGen := by
  rfl

@[simp] lemma doStop_headposition (s : St) :
    ((doStop s).1).headposition = s.headposition := by
  rfl

@[simp] lemma doStop_detectionTimer (s : St) :
    ((doStop s).1).detectionTimer = s.detectionTimer := by
  rfl

@[simp] lemma doStop_smInit (s : St) :
    ((doStop s).1).smInit = s.smInit := by
  rfl

@[simp] lemma trackLoss_fov (p : Params) (s : St) :
    ((trackLoss p s).1).fov = s.fov := by
  simp only [trackLoss, doStop]; split_ifs <;> rfl

@[simp] lemma trackLoss_initialized (p : Params) (s : St) :
    ((trackLoss p s).1).initialized = s.initialized := by
  simp only [trackLoss, doStop]; split_ifs <;> rfl

@[simp] lemma trackLoss_firstRun (p : Params) (s : St) :
    ((trackLoss p s).1).firstRun = s.firstRun := by
  simp only [trackLoss, doStop]; split_ifs <;> rfl

@[simp] lemma trackLoss_headDiagonal (p : Params) (s : St) :
    ((trackLoss p s).1).headDiagonal = s.headDiagonal := by
  simp only [trackLoss, doStop]; split_ifs <;> rfl

@[simp] lemma trackLoss_detectionTimer (p : Params) (s : St) :
    ((trackLoss p s).1).detectionTimer = s.detectionTimer := by
  simp only [trackLoss, doStop]; split_ifs <;> rfl

@[simp] lemma trackLoss_smInit (p : Params) (s : St) :
    ((trackLoss p s).1).smInit = s.smInit := by
  simp only [trackLoss, doStop]; split_ifs <;> rfl


/-! ## Characterization lemmas for the track pipeline helpers -/

@[simp] lemma trackFound_fst_faceFound (s : St) : (trackFound s).1.faceFound = true := by
  simp only [trackFound]; split_ifs <;> simp_all

@[simp] lemma trackFound_out (s : St) :
    (trackFound s).2 = if s.faceFound = false then ["found"] else [] := by
  simp only [trackFound]; split_ifs <;> rfl

@[simp] lemma smoothStep_fst_smInit (E : Externals) (p : Params) (f : Frame) (s : St) :
    (smoothStep E p f s).1.smInit = (s.smInit || p.smoothing) := by
  simp only [smoothStep]; split_ifs <;> simp_all

@[simp] lemma trackLoss_fst_faceFound (p : Params) (s : St) :
    (trackLoss p s).1.faceFound = false := by
  simp only [trackLoss, doStop]; split_ifs <;> rfl

@[simp] lemma trackLoss_fst_run (p : Params) (s : St) :
    (trackLoss p s).1.run = (if p.retryDetection = true then s.run else false) := by
  simp only [trackLoss, doStop]; split_ifs <;> rfl

@[simp] lemma trackLoss_fst_headposition (p : Params) (s : St) :
    (trackLoss p s).1.headposition = (if p.retryDetection = true then none else s.headposition) := by
  simp only [trackLoss, doStop]; split_ifs <;> rfl

@[simp] lemma trackLoss_fst_facetracker (p : Params) (s : St) :
    (trackLoss p s).1.facetracker =
      (if p.retryDetection = true then
        some { whitebalancing := some false, debug := p.debug, calcAngles := p.calcAngles }
      else none) := by
  simp only [trackLoss, doStop]; split_ifs <;> rfl

@[simp] lemma trackLoss_fst_ftGen (p : Params) (s : St) :
    (trackLoss p s).1.ftGen = (if p.retryDetection = true then s.ftGen + 1 else s.ftGen) := by
  simp only [trackLoss, doStop]; split_ifs <;> rfl

@[simp] lemma trackLoss_out (p : Params) (s : St) :
    (trackLoss p s).2 =
      (if p.retryDetection = true then ["redetecting"] else ["lost", "stopped"]) := by
  simp only [trackLoss, doStop]; split_ifs <;> rfl

@[simp] lemma doStop_fst_run (s : St) : (doStop s).1.run = false := rfl

@[simp] lemma doStop_fst_faceFound (s : St) : (doStop s).1.faceFound = false := rfl

@[simp] lemma doStop_fst_facetracker (s : St) : (doStop s).1.facetracker = none := rfl

@[simp] lemma doStop_out (s : St) : (doStop s).2.1 = ["stopped"] := rfl

@[simp] lemma doStop_ret (s : St) : (doStop s).2.2 = true := rfl

@[simp] lemma lazyFt_ftGen_eq (p : Params) (s : St) :
    (lazyFt p s).ftGen = (if s.facetracker = none then s.ftGen + 1 else s.ftGen) := by
  simp only [lazyFt]; split_ifs <;> rfl

@[simp] lemma emitWB_out (f : Frame) (s : St) :
    (emitWB f s).2 = (if f.detection = Mode.WB then ["whitebalance"] else []) := by
  simp only [emitWB]; split_ifs <;> rfl

@[simp] lemma emitDetecting_out (f : Frame) (s : St) :
    (emitDetecting f s).2 =
      (if s.firstRun = true ∧ f.detection = Mode.VJ then ["detecting"] else []) := by
  simp only [emitDetecting]; split_ifs <;> rfl


/-! ## Helper lemmas about the stability window -/

lemma pushDiag_fst_of_lt (w : List ℚ) (d : ℚ) (h : w.length < 6) :
    (pushDiag w d).1 = w ++ [d] := by
  simp [pushDiag, h]

lemma pushDiag_fst_of_ge (w : List ℚ) (d : ℚ) (h : ¬ w.length < 6) :
    (pushDiag w d).1 = w.drop 1 ++ [d] := by
  simp [pushDiag, h]

lemma foldWindow_eq (ds : List ℚ) : ∀ w : List ℚ, w.length ≤ 6 →
    ds.foldl (fun w d => (pushDiag w d).1) w = (w ++ ds).drop (w.length + ds.length - 6) := by
  induction ds with
  | nil =>
      intro w hw
      simp [Nat.sub_eq_zero_of_le hw]
  | cons d ds ih =>
      intro w hw
      by_cases h : w.length < 6
      · rw [List.foldl_cons, pushDiag_fst_of_lt w d h, ih (w ++ [d]) (by simp; omega)]
        have h1 : (w ++ [d]) ++ ds = w ++ d :: ds := by simp
        have h2 : (w ++ [d]).length + ds.length - 6 = w.length + (d :: ds).length - 6 := by
          simp; omega
        rw [h1, h2]
      · have hw6 : w.length = 6 := by omega
        obtain ⟨a, w1, rfl⟩ : ∃ a w1, w = a :: w1 := by
          cases w with
          | nil => simp at hw6
          | cons a w1 => exact ⟨a, w1, rfl⟩
        rw [List.foldl_cons, pushDiag_fst_of_ge _ d h]
        have hlen : ((a :: w1).drop 1 ++ [d]).length ≤ 6 := by
          simp at hw6 ⊢; omega
        rw [ih _ hlen]
        have h3 : ((a :: w1).drop 1 ++ [d]) ++ ds = w1 ++ d :: ds := by simp
        rw [h3]
        have h4 : ((a :: w1).drop 1 ++ [d]).length + ds.length - 6 = ds.length := by
          simp at hw6 ⊢; omega
        have h5 : (a :: w1).length + (d :: ds).length - 6 = ds.length + 1 := by
          simp at hw6 ⊢; omega
        rw [h4, h5]
        rfl

lemma runWindow_eq (ds : List ℚ) (h : 6 ≤ ds.length) :
    runWindow ds = ds.drop (ds.length - 6) := by
  have := foldWindow_eq ds [] (by simp)
  simpa [runWindow] using this

lemma pushDiag_snd_iff (w : List ℚ) (d : ℚ) (hw : w.length ≤ 6) :
    (pushDiag w d).2 = true ↔
      w.length = 6 ∧ listMax (pushDiag w d).1 - listMin (pushDiag w d).1 < 5 := by
  by_cases h : w.length < 6
  · simp [pushDiag, h]; omega
  · simp [pushDiag, h]; omega

/-! ## Helper lemmas about the track step -/

lemma track_valid_out (E : Externals) (p : Params) (now : ℚ) (f : Frame) (s : St)
    (h : validLock f) :
    (track E p now f s).2 = (if s.faceFound = false then ["found"] else []) ∧
    (track E p now f s).1.faceFound = true := by
  obtain ⟨h1, h2, h3, h4⟩ := h
  simp [track, trackCS, h1, h2, h3, h4]

lemma runTicks_found_count (E : Externals) (p : Params) :
    ∀ (tfs : List (ℚ × Frame)) (s : St), (∀ tf ∈ tfs, validLock tf.2) →
    ((runEvs E p s (tfs.map (fun tf => Ev.tick tf.1 tf.2))).2.count "found") =
      (if s.faceFound = false ∧ tfs ≠ [] then 1 else 0) := by
  intro tfs
  induction tfs with
  | nil => intro s hall; simp [runEvs]
  | cons tf rest ih =>
      intro s hall
      have hv : validLock tf.2 := hall tf (by simp)
      have hrest : ∀ x ∈ rest, validLock x.2 := fun x hx => hall x (by simp [hx])
      have h1 := track_valid_out E p tf.1 tf.2 s hv
      simp only [List.map_cons, runEvs, stepEv]
      rw [List.count_append, h1.1, ih _ hrest, h1.2]
      by_cases hff : s.faceFound = false <;> simp [hff]

lemma stepEv_fov_frozen (E : Externals) (p : Params) (s : St) (e : Ev)
    (h : s.firstRun = false) :
    (stepEv E p s e).1.firstRun = false ∧ (stepEv E p s e).1.fov = s.fov := by
  cases e with
  | init => simp [stepEv, doInit, h]
  | start => simp only [stepEv, doStart]; split_ifs <;> simp_all
  | stop => simp [stepEv, doStop, h]
  | tick now f =>
      cases hdet : f.detection <;>
        simp only [stepEv, track, trackCS, headposStep, hdet] <;>
        split_ifs <;> simp_all

lemma step_inv_fov (E : Externals) (p : Params) (s : St) (e : Ev)
    (h : s.firstRun = true → s.fov = 0) :
    (stepEv E p s e).1.firstRun = true → (stepEv E p s e).1.fov = 0 := by
  cases e with
  | init => simpa [stepEv, doInit] using h
  | start => simp only [stepEv, doStart]; split_ifs <;> simpa using h
  | stop => simpa [stepEv, doStop] using h
  | tick now f =>
      cases hdet : f.detection <;>
        simp only [stepEv, track, trackCS, headposStep, hdet] <;>
        split_ifs <;> simp_all

lemma runEvs_inv_fov (E : Externals) (p : Params) :
    ∀ (evs : List Ev) (s : St), (s.firstRun = true → s.fov = 0) →
    ((runEvs E p s evs).1.firstRun = true → (runEvs E p s evs).1.fov = 0) := by
  intro evs
  induction evs with
  | nil => intro s h; simpa [runEvs] using h
  | cons e es ih =>
      intro s h
      simp only [runEvs]
      exact ih _ (step_inv_fov E p s e h)

lemma pushDiag_length_le (w : List ℚ) (d : ℚ) : w.length ≤ (pushDiag w d).1.length := by
  unfold pushDiag
  split_ifs <;> simp <;> omega

lemma stepEv_window_mono (E : Externals) (p : Params) (s : St) (e : Ev) :
    s.headDiagonal.length ≤ (stepEv E p s e).1.headDiagonal.length := by
  cases e with
  | init => simp [stepEv, doInit]
  | start => simp only [stepEv, doStart]; split_ifs <;> simp
  | stop => simp [stepEv, doStop]
  | tick now f =>
      cases hdet : f.detection <;>
        simp only [stepEv, track, trackCS, headposStep, hdet] <;>
        split_ifs <;> simp_all [pushDiag_length_le]

/-- The concrete loss-retry scenario used by the C10 theorem: six valid
locks filling the stability window with diagonals `[2,5,2,5,2,5]`, then a
tracking loss with retry. -/
def lossScenario : List Ev :=
  [Ev.init, Ev.start, Ev.tick 0 frameA, Ev.tick 0 frameB, Ev.tick 0 frameA,
   Ev.tick 0 frameB, Ev.tick 0 frameA, Ev.tick 0 frameB, Ev.tick 0 frameLoss]

/-! ## Claim theorems -/

/-- C3: the claim as frozen is false on the code: on the push that first
fills the window to 6 samples, the code takes the `length < 6` branch and
never judges stability, so the window can hold 6 samples of span `< 5`
while stability is judged false. -/
theorem c3_counterexample :
    (pushDiag [0, 0, 0, 0, 0] 0).1 = [0, 0, 0, 0, 0, 0] ∧
    listMax (pushDiag [0, 0, 0, 0, 0] 0).1 - listMin (pushDiag [0, 0, 0, 0, 0] 0).1 < 5 ∧
    (pushDiag [0, 0, 0, 0, 0] 0).2 = false := by
  refine ⟨rfl, ?_, rfl⟩
  norm_num [pushDiag, listMax, listMin]

/-- C3 (amended): after ≥ 6 pushes the window holds exactly the last 6
pushed values in arrival order (strict FIFO, one pop then one push when
full), and a push judges stability true iff the window was already full
(6 samples) before the push and the resulting 6 samples span `< 5`; in
particular the push that first fills the window never judges stable. -/
theorem c3_stability_window (ds : List ℚ) (w : List ℚ) (d : ℚ)
    (hds : 6 ≤ ds.length) (hw : w.length ≤ 6) :
    runWindow ds = ds.drop (ds.length - 6) ∧
    ((pushDiag w d).2 = true ↔
      w.length = 6 ∧ listMax (pushDiag w d).1 - listMin (pushDiag w d).1 < 5) :=
  ⟨runWindow_eq ds hds, pushDiag_snd_iff w d hw⟩

/-- C3 witness: evaluating the amended claim at a concrete 7-push
sequence: the window is the last 6 values, and the 7th push judges
stable since the span of the final window is below 5. -/
theorem c3_stability_window_witness :
    runWindow [9, 1, 2, 3, 4, 1, 2] = [1, 2, 3, 4, 1, 2] ∧
    (pushDiag [1, 2, 3, 4, 1, 2] 3).2 = true := by
  have h := c3_stability_window [9, 1, 2, 3, 4, 1, 2] [1, 2, 3, 4, 1, 2] 3
    (by decide) (by decide)
  refine ⟨by simpa using h.1, h.2.mpr (by norm_num [pushDiag, listMax, listMin])⟩

/-- C5: the claim as frozen is false on the code: `stop()` is idempotent
on state and return value, but it dispatches "stopped" on every call, so
two consecutive stops emit "stopped" twice, not once. -/
theorem c5_counterexample :
    (runEvs E0 P0 St.init0 [Ev.stop, Ev.stop]).2 = ["stopped", "stopped"] ∧
    (doStop (doStop St.init0).1).1 = (doStop St.init0).1 ∧
    (doStop St.init0).2.2 = true ∧ (doStop (doStop St.init0).1).2.2 = true := by
  exact ⟨rfl, rfl, rfl, rfl⟩

/-- C5 (amended): calling `stop()` twice in a row returns success both
times and yields the same state as calling it once, but "stopped" is
emitted by each call — twice in total, not once. -/
theorem c5_stop_idempotent (s : St) :
    (doStop s).2.2 = true ∧
    (doStop (doStop s).1).2.2 = true ∧
    (doStop (doStop s).1).1 = (doStop s).1 ∧
    (doStop s).2.1 = ["stopped"] ∧
    (doStop (doStop s).1).2.1 = ["stopped"] := by
  exact ⟨rfl, rfl, rfl, rfl, rfl⟩

/-- C6: the claim as frozen is false on the code: `start()` has no
already-running guard — called while the session is running it returns
true (and re-enters the starter), not false. -/
theorem c6_counterexample :
    (doStart (doInit St.init0).1).1.run = true ∧
    (doStart (doStart (doInit St.init0).1).1).2.2 = true := by
  exact ⟨rfl, rfl⟩

/-- C6 (amended): `start()` returns false without side effects iff the
session is not initialized; once initialized it returns true and sets
the session running even when already running (no already-running
guard). -/
theorem c6_start_guard (s : St) :
    (s.initialized = false → doStart s = (s, [], false)) ∧
    (s.initialized = true → (doStart s).2.2 = true ∧ (doStart s).1 = { s with run := true }) := by
  constructor <;> intro h <;> simp [doStart, h]

/-- C6 witness: on the freshly constructed state `start()` fails with no
side effects; after `init` it succeeds. -/
theorem c6_start_guard_witness :
    doStart St.init0 = (St.init0, [], false) ∧
    (doStart (doInit St.init0).1).2.2 = true :=
  ⟨(c6_start_guard St.init0).1 rfl, ((c6_start_guard (doInit St.init0).1).2 rfl).1⟩

/-- C1: processing a FINE_TRACKED result with nonzero confidence and a
degenerate box while running: with retry the phase stays RUNNING,
"redetecting" is emitted, a fresh fine tracker (strictly newer
generation) is constructed with whitebalancing disabled, and faceFound
becomes false; without retry "lost" is emitted and the phase stops. -/
theorem c1_loss_policy (E : Externals) (p : Params) (now : ℚ) (f : Frame) (s : St)
    (hf : lossFrame f) (hrun : s.run = true) :
    (p.retryDetection = true →
        (track E p now f s).1.run = true ∧
        "redetecting" ∈ (track E p now f s).2 ∧
        (track E p now f s).1.facetracker =
          some { whitebalancing := some false, debug := p.debug, calcAngles := p.calcAngles } ∧
        s.ftGen < (track E p now f s).1.ftGen ∧
        (track E p now f s).1.faceFound = false) ∧
    (p.retryDetection = false →
        "lost" ∈ (track E p now f s).2 ∧ (track E p now f s).1.run = false) := by
  obtain ⟨h1, h2, h3⟩ := hf
  constructor <;> intro hr <;>
    simp [track, trackCS, h1, h2, h3, hr, hrun] <;> split_ifs <;> omega

/-- C1 witness: a concrete loss frame processed while running with the
default (retrying) parameters keeps the phase running and emits
"redetecting". -/
theorem c1_loss_policy_witness :
    "redetecting" ∈ (track E0 P0 0 frameLoss { St.init0 with run := true }).2 ∧
    (track E0 P0 0 frameLoss { St.init0 with run := true }).1.run = true := by
  have h := c1_loss_policy E0 P0 0 frameLoss { St.init0 with run := true }
    (by norm_num [lossFrame, frameLoss]) rfl
  exact ⟨(h.1 rfl).2.1, (h.1 rfl).1⟩

/-- C2: over any nonempty sequence of valid FINE_TRACKED locks, "found"
is emitted exactly once if faceFound was false at the start of the run
and never otherwise, and faceFound is reset only by a loss-retry or by
stop (so "found" cannot recur until such a reset). -/
theorem c2_found_edge_trigger (E : Externals) (p : Params) (s : St)
    (tfs : List (ℚ × Frame)) (hne : tfs ≠ []) (hall : ∀ tf ∈ tfs, validLock tf.2) :
    ((runEvs E p s (tfs.map (fun tf => Ev.tick tf.1 tf.2))).2.count "found"
        = if s.faceFound = false then 1 else 0) ∧
    (∀ now f, lossFrame f → p.retryDetection = true →
        (track E p now f s).1.faceFound = false) ∧
    (doStop s).1.faceFound = false := by
  refine ⟨?_, ?_, rfl⟩
  · rw [runTicks_found_count E p tfs s hall]
    simp [hne]
  · intro now f hf hr
    obtain ⟨h1, h2, h3⟩ := hf
    simp [track, trackCS, h1, h2, h3, hr]

/-- C2 witness: three consecutive valid locks from the initial state emit
"found" exactly once. -/
theorem c2_found_edge_trigger_witness :
    ((runEvs E0 P0 St.init0 ([((0 : ℚ), frameA), (1, frameA), (2, frameA)].map
        (fun tf => Ev.tick tf.1 tf.2))).2.count "found") = 1 := by
  have hall : ∀ tf ∈ [((0 : ℚ), frameA), (1, frameA), (2, frameA)], validLock tf.2 := by
    intro tf htf
    simp only [List.mem_cons, List.not_mem_nil, or_false] at htf
    rcases htf with h | h | h <;> subst h <;> norm_num [validLock, frameA]
  have h := c2_found_edge_trigger E0 P0 St.init0 [((0 : ℚ), frameA), (1, frameA), (2, frameA)]
    (by simp) hall
  simpa [St.init0] using h.1

/-- C4: the field of view is computed at most once per session: once the
first bootstrap has happened (`firstRun = false`) no step ever changes
`fov` or resets `firstRun`; any pose tracker constructed after that point
is passed exactly `some fov` (the recorded value); and the tracker
constructed by the first bootstrap is passed the configured override
(`p.fov`, `none` meaning auto-estimation) and its resulting FOV is
recorded. -/
theorem c4_fov_calibration (E : Externals) (p : Params) :
    (∀ (s : St) (e : Ev), s.firstRun = false →
        (stepEv E p s e).1.firstRun = false ∧ (stepEv E p s e).1.fov = s.fov) ∧
    (∀ (now : ℚ) (f : Frame) (s : St) (hp : HeadPos), s.firstRun = false →
        (track E p now f s).1.headposition = some hp →
        s.headposition = some hp ∨ hp.opts.fov = some s.fov) ∧
    (∀ (now : ℚ) (f : Frame) (s : St) (hp : HeadPos), s.firstRun = true →
        (track E p now f s).1.headposition = some hp →
        s.headposition = some hp ∨
          (hp.opts.fov = p.fov ∧ (track E p now f s).1.fov = hp.fovVal)) := by
  refine ⟨fun s e h => stepEv_fov_frozen E p s e h, ?_, ?_⟩
  · intro now f s hp h hh
    cases hdet : f.detection <;>
      simp only [track, trackCS, headposStep, hdet] at hh <;>
      split_ifs at hh <;> simp_all
    all_goals (subst hh; rfl)
  · intro now f s hp h hh
    cases hdet : f.detection <;>
      simp only [track, trackCS, headposStep, hdet] at hh ⊢ <;>
      split_ifs at hh <;> simp_all
    all_goals subst hh
    all_goals simp_all

/-- C4 witness: from a post-calibration state, a step leaves `firstRun`
false and `fov` unchanged. -/
theorem c4_fov_calibration_witness :
    (stepEv E0 P0 { St.init0 with firstRun := false } Ev.stop).1.firstRun = false ∧
    (stepEv E0 P0 { St.init0 with firstRun := false } Ev.stop).1.fov
      = ({ St.init0 with firstRun := false } : St).fov :=
  (c4_fov_calibration E0 P0).1 { St.init0 with firstRun := false } Ev.stop rfl

/-- C7: the claim as frozen is false on the code: "whitebalance" (and
"detecting" for a first coarse result) are dispatched before the
confidence check, so a `confidence == 0` result in whitebalancing mode
does emit a status. -/
theorem c7_counterexample :
    frameWB0.confidence = 0 ∧ (track E0 P0 0 frameWB0 St.init0).2 = ["whitebalance"] := by
  refine ⟨rfl, ?_⟩
  simp +decide [track, lazyFt, emitWB, emitDetecting, E0, P0, frameWB0, St.init0]

/-- C7 (amended): a `confidence == 0` result leaves the phase, the
detection timer, faceFound, fov, firstRun, the stability window, the
pose tracker and the smoother flag unchanged, and emits no status except
"whitebalance" when the mode is WHITEBALANCING and "detecting" when the
mode is COARSE_DETECTED during the pre-calibration period (both emitted
regardless of confidence); in particular FINE_TRACKED results with zero
confidence emit nothing and change no tracking state. -/
theorem c7_confidence_zero (E : Externals) (p : Params) (now : ℚ) (f : Frame) (s : St)
    (h : f.confidence = 0) :
    (track E p now f s).1.run = s.run ∧
    (track E p now f s).1.detectionTimer = s.detectionTimer ∧
    (track E p now f s).1.faceFound = s.faceFound ∧
    (track E p now f s).1.fov = s.fov ∧
    (track E p now f s).1.firstRun = s.firstRun ∧
    (track E p now f s).1.headDiagonal = s.headDiagonal ∧
    (track E p now f s).1.headposition = s.headposition ∧
    (track E p now f s).1.smInit = s.smInit ∧
    (track E p now f s).2 =
      (if f.detection = Mode.WB then ["whitebalance"] else []) ++
      (if s.firstRun = true ∧ f.detection = Mode.VJ then ["detecting"] else []) := by
  simp [track, h]

/-- C7 witness: the amended statement evaluated on a concrete
whitebalancing frame with zero confidence. -/
theorem c7_confidence_zero_witness :
    (track E0 P0 0 frameWB0 St.init0).1.faceFound = St.init0.faceFound ∧
    (track E0 P0 0 frameWB0 St.init0).1.run = St.init0.run := by
  have h := c7_confidence_zero E0 P0 0 frameWB0 St.init0 rfl
  exact ⟨h.2.2.1, h.1⟩

/-- C8: the claim as frozen is false on the code: after a valid lock has
primed the smoother, a loss-retry (which does emit "redetecting" and
resets faceFound and the pose tracker) leaves the smoother's initialized
flag set — `smoothing_primed` is not reset. -/
theorem c8_counterexample :
    (runEvs E0 P0 St.init0 [Ev.init, Ev.start, Ev.tick 0 frameA, Ev.tick 0 frameLoss]).1.smInit
      = true ∧
    (runEvs E0 P0 St.init0 [Ev.init, Ev.start, Ev.tick 0 frameA, Ev.tick 0 frameLoss]).1.faceFound
      = false ∧
    (runEvs E0 P0 St.init0 [Ev.init, Ev.start, Ev.tick 0 frameA, Ev.tick 0 frameLoss]).1.headposition
      = none ∧
    "redetecting" ∈
      (runEvs E0 P0 St.init0 [Ev.init, Ev.start, Ev.tick 0 frameA, Ev.tick 0 frameLoss]).2 := by
  simp +decide [runEvs, stepEv, track, trackCS, trackLoss, trackFound, smoothStep,
    headposStep, lazyFt, emitWB, emitDetecting, doStop, doInit, doStart, pushDiag,
    E0, P0, frameA, frameLoss, St.init0]

/-- C8 (amended): a loss-retry resets `faceFound` and discards the pose
tracker, but leaves the smoother's initialized flag exactly as it was,
so the smoothing filter is not re-initialized with the first valid
sample after reacquisition. -/
theorem c8_loss_retry_state (E : Externals) (p : Params) (now : ℚ) (f : Frame) (s : St)
    (hf : lossFrame f) (hr : p.retryDetection = true) :
    (track E p now f s).1.smInit = s.smInit ∧
    (track E p now f s).1.faceFound = false ∧
    (track E p now f s).1.headposition = none := by
  obtain ⟨h1, h2, h3⟩ := hf
  simp [track, trackCS, h1, h2, h3, hr]

/-- C8 witness: the amended statement evaluated on a concrete loss frame
from the initial state. -/
theorem c8_loss_retry_state_witness :
    (track E0 P0 0 frameLoss St.init0).1.smInit = St.init0.smInit ∧
    (track E0 P0 0 frameLoss St.init0).1.faceFound = false := by
  have h := c8_loss_retry_state E0 P0 0 frameLoss St.init0
    (by norm_num [lossFrame, frameLoss]) rfl
  exact ⟨h.1, h.2.1⟩

/-- C9: `getFOV` returns 0 ("unset") at every reachable point before the
first pose bootstrap; the step performing the first bootstrap records the
constructed estimator's FOV into `fov`; and after the first bootstrap no
step ever changes `getFOV` again. -/
theorem c9_current_fov (E : Externals) (p : Params) (evs : List Ev) (now : ℚ)
    (f : Frame) (s : St) (e : Ev) :
    ((runEvs E p St.init0 evs).1.firstRun = true → getFOV (runEvs E p St.init0 evs).1 = 0) ∧
    (s.firstRun = true → (track E p now f s).1.firstRun = false →
        ∃ hp : HeadPos, (track E p now f s).1.headposition = some hp ∧
          getFOV (track E p now f s).1 = hp.fovVal) ∧
    (s.firstRun = false → getFOV (stepEv E p s e).1 = getFOV s) := by
  refine ⟨fun h => runEvs_inv_fov E p evs St.init0 (fun _ => rfl) h, ?_,
    fun h => (stepEv_fov_frozen E p s e h).2⟩
  intro h hb
  cases hdet : f.detection <;>
    simp only [track, trackCS, headposStep, getFOV, hdet] at hb ⊢ <;>
    split_ifs at hb <;> simp_all

/-- C9 witness: at construction (empty event list) the FOV is unset. -/
theorem c9_current_fov_witness :
    getFOV (runEvs E0 P0 St.init0 []).1 = 0 :=
  (c9_current_fov E0 P0 [] 0 frameA St.init0 Ev.stop).1 rfl

set_option maxRecDepth 4000 in
set_option maxHeartbeats 1000000 in
/-- C10: the stability window is never cleared: no event shortens it, and
a loss-retry and stop leave it exactly unchanged; consequently, in the
concrete scenario where six diagonals were recorded before a loss-retry,
the very first valid lock after the retry bootstraps the pose tracker
using the five pre-loss samples still in the window. -/
theorem c10_window_persistence (E : Externals) (p : Params) (s : St) (e : Ev)
    (now : ℚ) (f : Frame) (hf : lossFrame f) :
    s.headDiagonal.length ≤ (stepEv E p s e).1.headDiagonal.length ∧
    (track E p now f s).1.headDiagonal = s.headDiagonal ∧
    (doStop s).1.headDiagonal = s.headDiagonal ∧
    ((runEvs E0 P0 St.init0 lossScenario).1.headposition = none ∧
     (runEvs E0 P0 St.init0 lossScenario).1.headDiagonal = [2, 5, 2, 5, 2, 5] ∧
     (track E0 P0 0 frameA (runEvs E0 P0 St.init0 lossScenario).1).1.headposition ≠ none ∧
     (track E0 P0 0 frameA (runEvs E0 P0 St.init0 lossScenario).1).1.headDiagonal
       = [5, 2, 5, 2, 5, 2]) := by
  obtain ⟨h1, h2, h3⟩ := hf
  refine ⟨stepEv_window_mono E p s e, ?_, rfl, ?_⟩
  · simp [track, trackCS, h1, h2, h3]
  · have hpd : pushDiag [2, 5, 2, 5, 2, 5] 2 = ([5, 2, 5, 2, 5, 2], true) := by
      norm_num [pushDiag, listMax, listMin]
    simp +decide [lossScenario, runEvs, stepEv, track, trackCS, trackLoss, trackFound,
      smoothStep, headposStep, lazyFt, emitWB, emitDetecting, doStop, doInit, doStart,
      pushDiag, E0, P0, frameA, frameB, frameLoss, St.init0, hpd]
    norm_num [listMax, listMin]
    simp

/-- C10 witness: stop keeps the window length and a concrete loss frame
leaves the window untouched. -/
theorem c10_window_persistence_witness :
    St.init0.headDiagonal.length ≤ (stepEv E0 P0 St.init0 Ev.stop).1.headDiagonal.length ∧
    (track E0 P0 0 frameLoss St.init0).1.headDiagonal = St.init0.headDiagonal := by
  have h := c10_window_persistence E0 P0 St.init0 Ev.stop 0 frameLoss
    (by norm_num [lossFrame, frameLoss])
  exact ⟨h.1, h.2.1⟩

end Headtrackr
